import Mathlib

/-!
Verification of the product-recommendation pipeline of the skin-analysis
backend (`app/ai/ProductRecommendation.py`, `app/ai/AiServices.py`,
`app/models/Request.py`, `app/models/Response.py`).

The Python code is embedded shallowly: strings are `String`/`List Char`,
Python integers are `Int`/`Nat`, fallible code returns `Option`/`Except`,
the file-system collaborator is a function `String → Option String`
(file name to contents), and the JSON decoding done by `json.loads` is
reimplemented as an executable fuelled parser.  The embedding is
ASCII-faithful: Python's `str.lower`, `str.upper`, `\w`, `\d` and `\s`
are modelled on the ASCII range (all catalogue keys, regex subjects and
test inputs used in the development are ASCII where it matters).
-/

namespace SkinBackend

/-! ## Python-style character and string helpers -/

/-- The opening-brace character, written via its code point. -/
def lbrace : Char := Char.ofNat 123

/-- The closing-brace character, written via its code point. -/
def rbrace : Char := Char.ofNat 125

/-- The single-quote (apostrophe) character, used in Python error messages. -/
def squote : Char := Char.ofNat 39

/-- Whitespace recognised by Python's `str.strip()` and the regex class
`\s` (ASCII fragment): space, tab, newline, carriage return, vertical
tab, form feed. -/
def isPySpace (c : Char) : Bool :=
  c = ' ' || c = '\t' || c = '\n' || c = '\r' || c = '\x0b' || c = '\x0c'

/-- Word characters of the regex class `\w` (ASCII fragment):
letters, digits and underscore. -/
def isWordChar (c : Char) : Bool :=
  c.isAlpha || c.isDigit || c = '_'

/-- Drop, from the right end of `l`, every trailing character satisfying `p`
(Python `str.rstrip`). -/
def rdropWhile (p : Char → Bool) (l : List Char) : List Char :=
  (l.reverse.dropWhile p).reverse

/-- Python `str.strip(chars)`: drop characters satisfying `p` from both ends. -/
def stripWhile (p : Char → Bool) (l : List Char) : List Char :=
  rdropWhile p (l.dropWhile p)

/-- Python `str.strip()` (whitespace on both ends). -/
def pyStrip (l : List Char) : List Char := stripWhile isPySpace l

/-- Python substring test `pat in hay` (`True` for the empty pattern). -/
def containsSub (hay pat : List Char) : Bool :=
  if pat.isPrefixOf hay then true
  else
    match hay with
    | [] => false
    | _ :: t => containsSub t pat

/-- The text after the first occurrence of `pat` in `hay`
(Python `hay.split(pat, 1)[1]`); `none` when `pat` does not occur. -/
def afterFirst (hay pat : List Char) : Option (List Char) :=
  if pat.isPrefixOf hay then some (hay.drop pat.length)
  else
    match hay with
    | [] => none
    | _ :: t => afterFirst t pat

/-- Python `text.split(sep)` for a single-character separator `sep`:
the empty text yields one empty field. -/
def splitOnChar (sep : Char) : List Char → List (List Char)
  | [] => [[]]
  | c :: cs =>
    match splitOnChar sep cs with
    | [] => [[]]
    | l :: ls => if c = sep then [] :: l :: ls else (c :: l) :: ls

/-- Python `str.lower` (ASCII fragment). -/
def pyLower (l : List Char) : List Char := l.map Char.toLower

/-- Python `str.upper` (ASCII fragment). -/
def pyUpper (l : List Char) : List Char := l.map Char.toUpper

/-- String-level Python `lower`. -/
def pyLowerS (s : String) : String := String.mk (pyLower s.data)

/-- String-level Python `upper`. -/
def pyUpperS (s : String) : String := String.mk (pyUpper s.data)

/-- Numeric value of an ASCII digit. -/
def digitVal (c : Char) : Nat := c.toNat - 48

/-! ## JSON values and Python-`json` decoding

`json.loads` is the decode step of the catalogue parser.  A `Json` value
mirrors what `json.loads` can produce; numbers keep their source literal
(their numeric interpretation is never consumed by the code under
study). -/

/-- A decoded JSON value.  Objects carry their key/value pairs in
insertion order with Python-`dict` semantics (duplicate keys collapsed,
last value wins, first position kept). -/
inductive Json where
  | str (s : String)
  | num (raw : String)
  | bool (b : Bool)
  | null
  | arr (xs : List Json)
  | obj (kvs : List (String × Json))
  deriving Repr

/-- Structural boolean equality on `Json`. -/
def Json.beq : Json → Json → Bool
  | .str a, .str b => a == b
  | .num a, .num b => a == b
  | .bool a, .bool b => a == b
  | .null, .null => true
  | .arr [], .arr [] => true
  | .arr (x :: xs), .arr (y :: ys) => Json.beq x y && Json.beq (.arr xs) (.arr ys)
  | .obj [], .obj [] => true
  | .obj ((k, v) :: xs), .obj ((k2, v2) :: ys) =>
      k == k2 && Json.beq v v2 && Json.beq (.obj xs) (.obj ys)
  | _, _ => false

/-- Whitespace accepted between JSON tokens by Python's `json` module. -/
def jsonWs (c : Char) : Bool :=
  c = ' ' || c = '\t' || c = '\n' || c = '\r'

/-- Skip inter-token JSON whitespace. -/
def skipJsonWs (l : List Char) : List Char := l.dropWhile jsonWs

/-- Value of an ASCII hexadecimal digit. -/
def hexVal (c : Char) : Nat :=
  if c.isDigit then c.toNat - 48
  else if 'a' ≤ c && c ≤ 'f' then c.toNat - 87
  else c.toNat - 55

/-- ASCII hexadecimal digit test. -/
def isHexDigitC (c : Char) : Bool :=
  c.isDigit || ('a' ≤ c && c ≤ 'f') || ('A' ≤ c && c ≤ 'F')

/-- The replacement character U+FFFD, standing in for lone surrogates. -/
def replChar : Char := Char.ofNat 0xFFFD

/-- Four hexadecimal digits of a `\uXXXX` escape. -/
def parseHex4 : List Char → Option (Nat × List Char)
  | a :: b :: c :: d :: rest =>
    if isHexDigitC a && isHexDigitC b && isHexDigitC c && isHexDigitC d then
      some (hexVal a * 4096 + hexVal b * 256 + hexVal c * 16 + hexVal d, rest)
    else none
  | _ => none

/-- Python-`dict` insertion: an existing key keeps its position and gets the
new value, a fresh key is appended. -/
def dictInsert (kvs : List (String × Json)) (k : String) (v : Json) :
    List (String × Json) :=
  match kvs with
  | [] => [(k, v)]
  | (k2, v2) :: rest =>
    if k2 = k then (k2, v) :: rest else (k2, v2) :: dictInsert rest k v

/-- Body of a JSON string literal, after the opening quote, in strict mode
(raw control characters rejected, the standard escapes honoured).  Surrogate
pairs in `\uXXXX` escapes are combined; a lone surrogate—which Lean's `Char`
cannot carry—is abstracted to U+FFFD.  Returns the decoded characters and the
input remaining after the closing quote. -/
def parseJStr : Nat → List Char → Option (List Char × List Char)
  | 0, _ => none
  | fuel + 1, l =>
    match l with
    | [] => none
    | c :: rest =>
      if c = '"' then some ([], rest)
      else if c = '\\' then
        match rest with
        | [] => none
        | e :: rest2 =>
          let plain : Char → Option (List Char × List Char) := fun d =>
            match parseJStr fuel rest2 with
            | some (cs, r) => some (d :: cs, r)
            | none => none
          if e = '"' then plain '"'
          else if e = '\\' then plain '\\'
          else if e = '/' then plain '/'
          else if e = 'b' then plain '\x08'
          else if e = 'f' then plain '\x0c'
          else if e = 'n' then plain '\n'
          else if e = 'r' then plain '\r'
          else if e = 't' then plain '\t'
          else if e = 'u' then
            match parseHex4 rest2 with
            | none => none
            | some (n, rest3) =>
              if 0xD800 ≤ n && n < 0xDC00 then
                match rest3 with
                | '\\' :: 'u' :: rest4 =>
                  match parseHex4 rest4 with
                  | some (m, rest5) =>
                    if 0xDC00 ≤ m && m < 0xE000 then
                      match parseJStr fuel rest5 with
                      | some (cs, r) =>
                        some (Char.ofNat
                          (0x10000 + (n - 0xD800) * 0x400 + (m - 0xDC00)) :: cs, r)
                      | none => none
                    else
                      match parseJStr fuel rest3 with
                      | some (cs, r) => some (replChar :: cs, r)
                      | none => none
                  | none =>
                    match parseJStr fuel rest3 with
                    | some (cs, r) => some (replChar :: cs, r)
                    | none => none
                | _ =>
                  match parseJStr fuel rest3 with
                  | some (cs, r) => some (replChar :: cs, r)
                  | none => none
              else if 0xDC00 ≤ n && n < 0xE000 then
                match parseJStr fuel rest3 with
                | some (cs, r) => some (replChar :: cs, r)
                | none => none
              else
                match parseJStr fuel rest3 with
                | some (cs, r) => some (Char.ofNat n :: cs, r)
                | none => none
          else none
      else if c.toNat < 32 then none
      else
        match parseJStr fuel rest with
        | some (cs, r) => some (c :: cs, r)
        | none => none

/-- Optional fraction and exponent of a JSON number literal, given the sign
and integer part already consumed; returns the whole literal and the
remaining input. -/
def parseJNumTail (sign intPart t : List Char) : List Char × List Char :=
  let fr :=
    match t with
    | '.' :: u =>
      let ds := u.takeWhile Char.isDigit
      if ds.isEmpty then (([] : List Char), t)
      else ('.' :: ds, u.drop ds.length)
    | _ => (([] : List Char), t)
  let t2 := fr.2
  let ex :=
    match t2 with
    | c :: u =>
      if c = 'e' || c = 'E' then
        let su :=
          match u with
          | s :: u3 => if s = '+' || s = '-' then ([s], u3) else (([] : List Char), u)
          | [] => (([] : List Char), u)
        let ds := su.2.takeWhile Char.isDigit
        if ds.isEmpty then (([] : List Char), t2)
        else (c :: (su.1 ++ ds), su.2.drop ds.length)
      else (([] : List Char), t2)
    | [] => (([] : List Char), t2)
  (sign ++ intPart ++ fr.1 ++ ex.1, ex.2)

/-- A JSON number literal (grammar of Python's `json`): optional minus,
integer part without leading zeros, optional fraction, optional exponent.
Returns the literal's characters and the remaining input. -/
def parseJNum (l : List Char) : Option (List Char × List Char) :=
  let sl :=
    match l with
    | '-' :: t => ((['-'] : List Char), t)
    | _ => (([] : List Char), l)
  match sl.2 with
  | '0' :: t => some (parseJNumTail sl.1 ['0'] t)
  | c :: t =>
    if c.isDigit then
      let ds := t.takeWhile Char.isDigit
      some (parseJNumTail sl.1 (c :: ds) (t.drop ds.length))
    else none
  | [] => none

mutual

/-- One JSON value at the head of the input (whitespace already skipped),
following Python's `json` scanner: strings, objects, arrays, `true`,
`false`, `null`, the non-standard constants `NaN`/`Infinity`/`-Infinity`,
and numbers. -/
def parseJVal : Nat → List Char → Option (Json × List Char)
  | 0, _ => none
  | fuel + 1, l =>
    match l with
    | [] => none
    | c :: rest =>
      if c = '"' then
        match parseJStr (rest.length + 1) rest with
        | some (cs, r) => some (.str (String.mk cs), r)
        | none => none
      else if c = lbrace then
        let l1 := skipJsonWs rest
        match l1 with
        | d :: r1 =>
          if d = rbrace then some (.obj [], r1)
          else parseJMembers fuel l1 []
        | [] => none
      else if c = '[' then
        let l1 := skipJsonWs rest
        match l1 with
        | d :: r1 =>
          if d = ']' then some (.arr [], r1)
          else parseJElems fuel l1 []
        | [] => none
      else if "true".data.isPrefixOf l then some (.bool true, l.drop 4)
      else if "false".data.isPrefixOf l then some (.bool false, l.drop 5)
      else if "null".data.isPrefixOf l then some (.null, l.drop 4)
      else if "NaN".data.isPrefixOf l then some (.num "NaN", l.drop 3)
      else if "Infinity".data.isPrefixOf l then some (.num "Infinity", l.drop 8)
      else if "-Infinity".data.isPrefixOf l then some (.num "-Infinity", l.drop 9)
      else
        match parseJNum l with
        | some (lit, r) => some (.num (String.mk lit), r)
        | none => none

/-- The members of a JSON object, starting at the first key. -/
def parseJMembers : Nat → List Char → List (String × Json) →
    Option (Json × List Char)
  | 0, _, _ => none
  | fuel + 1, l, acc =>
    match l with
    | '"' :: r0 =>
      match parseJStr (r0.length + 1) r0 with
      | none => none
      | some (kcs, r1) =>
        match skipJsonWs r1 with
        | ':' :: r2 =>
          match parseJVal fuel (skipJsonWs r2) with
          | none => none
          | some (v, r3) =>
            let acc2 := dictInsert acc (String.mk kcs) v
            match skipJsonWs r3 with
            | ',' :: r4 => parseJMembers fuel (skipJsonWs r4) acc2
            | d :: r4 =>
              if d = rbrace then some (.obj acc2, r4) else none
            | [] => none
        | _ => none
    | _ => none

/-- The elements of a JSON array, starting at the first element. -/
def parseJElems : Nat → List Char → List Json → Option (Json × List Char)
  | 0, _, _ => none
  | fuel + 1, l, acc =>
    match parseJVal fuel l with
    | none => none
    | some (v, r1) =>
      match skipJsonWs r1 with
      | ',' :: r2 => parseJElems fuel (skipJsonWs r2) (acc ++ [v])
      | ']' :: r2 => some (.arr (acc ++ [v]), r2)
      | _ => none

end

/-- Python `json.loads`: decode one JSON document; fails unless the whole
input is consumed (up to trailing whitespace). -/
def json_loads (l : List Char) : Option Json :=
  match parseJVal (l.length + 4) (skipJsonWs l) with
  | some (v, rest) => if (skipJsonWs rest).isEmpty then some v else none
  | none => none

/-! ## CatalogParser: `ProductRecommendationService._parse_csv_content`

The parser walks the document line by line, accumulating the lines of one
product between a line containing `": {` and a line equal to `}`, then
repairs the accumulated fragment into valid JSON and decodes it
(`ProductRecommendation.py`, lines 16–73). -/

/-- A decoded product entry: the Python `dict` produced by `json.loads`
for one catalogue product. -/
abbrev PyDict := List (String × Json)

/-- Python `'""'.replace` step: collapse doubled quote characters into
single ones, scanning left to right without overlap
(`ProductRecommendation.py`, line 55). -/
def collapseDQ : List Char → List Char
  | '"' :: '"' :: rest => '"' :: collapseDQ rest
  | c :: rest => c :: collapseDQ rest
  | [] => []

/-- Shared tail of both key-quoting substitutions: after the trigger
character, greedily take `\s*`, then a non-empty run of `\w`, then a
literal colon; returns the key and the input after the colon.  Word and
whitespace characters are disjoint, so the greedy scan needs no
backtracking. -/
def matchKeyColon (cs : List Char) : Option (List Char × List Char) :=
  let t := cs.dropWhile isPySpace
  let word := t.takeWhile isWordChar
  match word, t.dropWhile isWordChar with
  | [], _ => none
  | _, ':' :: rest => some (word, rest)
  | _, _ => none

/-- `re.sub(r'\n\s*(\w+):', r'\n"\1":', ·)` — quote a bare key that follows
a newline, replacing every non-overlapping occurrence left to right
(`ProductRecommendation.py`, line 60).  The fuel is one unit per input
character, which the scan never exhausts. -/
def quoteKeysAfterNl : Nat → List Char → List Char
  | 0, l => l
  | _ + 1, [] => []
  | fuel + 1, c :: cs =>
    if c = '\n' then
      match matchKeyColon cs with
      | some (word, rest) =>
        '\n' :: '"' :: (word ++ '"' :: ':' :: quoteKeysAfterNl fuel rest)
      | none => c :: quoteKeysAfterNl fuel cs
    else c :: quoteKeysAfterNl fuel cs

/-- `re.sub(r'{\s*(\w+):', r'{"\1":', ·)` — quote a bare key that follows
an opening brace (`ProductRecommendation.py`, line 62). -/
def quoteKeysAfterBrace : Nat → List Char → List Char
  | 0, l => l
  | _ + 1, [] => []
  | fuel + 1, c :: cs =>
    if c = lbrace then
      match matchKeyColon cs with
      | some (word, rest) =>
        c :: '"' :: (word ++ '"' :: ':' :: quoteKeysAfterBrace fuel rest)
      | none => c :: quoteKeysAfterBrace fuel cs
    else c :: quoteKeysAfterBrace fuel cs

/-- The product-start marker `": {` (a quoted name followed by an opening
brace). -/
def startPat : List Char := ['"', ':', ' ', lbrace]

/-- The known non-product header fragment skipped by the parser. -/
def headerPat : List Char := "Opções Protetor solar".data

/-- Decode one accumulated product buffer (the body of the `try` block,
`ProductRecommendation.py` lines 39–66): join the lines, strip enclosing
quotes, isolate the fragment after `": {`, re-prepend the brace, collapse
doubled quotes, quote bare keys, and decode as JSON.  Any decoding failure
yields `none` (the product is silently dropped).  The fragment always
starts with an opening brace, so a successful decode is always an object;
its key/value pairs are returned. -/
def decodeSegment (seg : List (List Char)) : Option PyDict :=
  let product_str := (seg.intersperse ['\n']).flatten
  let ps := stripWhile (fun c => c = '"') product_str
  if containsSub ps startPat then
    match afterFirst ps startPat with
    | none => none
    | some tail0 =>
      let tail1 := rdropWhile isPySpace (rdropWhile (fun c => c = '"') tail0)
      let frag0 := lbrace :: tail1
      let frag1 := collapseDQ frag0
      let frag2 := quoteKeysAfterNl (frag1.length + 1) frag1
      let frag3 := quoteKeysAfterBrace (frag2.length + 1) frag2
      match json_loads frag3 with
      | some (Json.obj kvs) => some kvs
      | _ => none
  else none

/-- Skip condition of the scan (line 26): blank line or known header. -/
def skipLine (line : List Char) : Bool :=
  line.isEmpty || containsSub line headerPat

/-- Buffer update of the scan (lines 30–34): a `": {` line starts a fresh
buffer, any other line is appended only when a buffer is open. -/
def bufUpdate (buf : List (List Char)) (line : List Char) : List (List Char) :=
  if containsSub line startPat then [line]
  else if buf.isEmpty then buf
  else buf ++ [line]

/-- Close condition of the scan (line 37): an open buffer and a line that
is exactly the closing brace. -/
def closesProduct (buf1 : List (List Char)) (line : List Char) : Bool :=
  !buf1.isEmpty && line = [rbrace]

/-- The line-scanning loop of `_parse_csv_content` (lines 22–71): skip
blank and header lines, start a fresh buffer on a `": {` line, append
lines while a buffer is open, and on a lone `}` line decode the buffer,
keeping the result when decoding succeeds. -/
def parseLoop : List (List Char) → List (List Char) → List PyDict → List PyDict
  | [], _, acc => acc
  | l :: ls, buf, acc =>
    if skipLine (pyStrip l) then parseLoop ls buf acc
    else if closesProduct (bufUpdate buf (pyStrip l)) (pyStrip l) then
      parseLoop ls []
        (match decodeSegment (bufUpdate buf (pyStrip l)) with
         | some p => acc ++ [p]
         | none => acc)
    else parseLoop ls (bufUpdate buf (pyStrip l)) acc

/-- The same scan as `parseLoop`, recording every buffer the parser
attempts to decode, in document order.  These buffers are the parser's own
segmentation of the document into candidate product entries. -/
def segLoop : List (List Char) → List (List Char) → List (List (List Char))
  | [], _ => []
  | l :: ls, buf =>
    if skipLine (pyStrip l) then segLoop ls buf
    else if closesProduct (bufUpdate buf (pyStrip l)) (pyStrip l) then
      bufUpdate buf (pyStrip l) :: segLoop ls []
    else segLoop ls (bufUpdate buf (pyStrip l))

/-- The lines of a catalogue document: strip the whole text, then split on
newlines (`content.strip().split('\n')`, line 19). -/
def docLines (content : String) : List (List Char) :=
  splitOnChar '\n' (pyStrip content.data)

/-- `ProductRecommendationService._parse_csv_content`. -/
def parse_csv_content (content : String) : List PyDict :=
  parseLoop (docLines content) [] []

/-- The candidate product entries of a document, as segmented by the
parser's own line scan. -/
def docSegments (content : String) : List (List (List Char)) :=
  segLoop (docLines content) []

theorem parseLoop_eq_filterMap_segLoop (ls : List (List Char)) :
    ∀ buf acc,
      parseLoop ls buf acc = acc ++ (segLoop ls buf).filterMap decodeSegment := by
  induction ls with
  | nil => intro buf acc; simp [parseLoop, segLoop]
  | cons l ls ih =>
    intro buf acc
    by_cases h1 : skipLine (pyStrip l) = true
    · simp [parseLoop, segLoop, h1, ih]
    · by_cases h2 :
        closesProduct (bufUpdate buf (pyStrip l)) (pyStrip l) = true
      · cases hd : decodeSegment (bufUpdate buf (pyStrip l)) <;>
          simp [parseLoop, segLoop, h1, h2, hd, ih]
      · simp [parseLoop, segLoop, h1, h2, ih]

theorem length_filterMap_eq_length_filter {α β : Type} (f : α → Option β)
    (l : List α) :
    (l.filterMap f).length = (l.filter (fun a => (f a).isSome)).length := by
  induction l with
  | nil => rfl
  | cons a l ih => cases h : f a <;> simp [List.filterMap_cons, h, ih]

/-! ## ProfileClassifier: `determine_age_group` and `get_age_category`

`ProductRecommendationService.determine_age_group` (lines 75–132) first
searches the lower-cased text for an explicit two-digit age with three
regex patterns, in order; otherwise it scores three keyword lists and
takes Python's `max(scores, key=scores.get)` (first key wins on ties),
falling back to group 1 when the best score is zero.
`get_age_category` (`AiServices.py`, lines 129–141) is the separate
age-to-category mapping used by `get_routine_file` on the live path. -/

/-- Leftmost-match regex search: try the matcher at every position, left
to right, including the empty suffix (like `re.search`). -/
def reSearchFirst (matchAt : List Char → Option Nat) : List Char → Option Nat
  | [] => matchAt []
  | c :: rest =>
    match matchAt (c :: rest) with
    | some a => some a
    | none => reSearchFirst matchAt rest

/-- The pattern `(\d{2})\s*anos` anchored at the current position: two
digits, optional whitespace, the literal `anos`; captures the two digits.
Whitespace and the letter `a` are disjoint from digits, so the greedy
scan needs no backtracking. -/
def p1At : List Char → Option Nat
  | d1 :: d2 :: rest =>
    if d1.isDigit && d2.isDigit
        && "anos".data.isPrefixOf (rest.dropWhile isPySpace) then
      some (digitVal d1 * 10 + digitVal d2)
    else none
  | _ => none

/-- The separator class `[:\s]` of the second pattern. -/
def isColonOrSpace (c : Char) : Bool := c = ':' || isPySpace c

/-- The pattern `idade[:\s]+(\d{2})` anchored at the current position. -/
def p2At (l : List Char) : Option Nat :=
  if "idade".data.isPrefixOf l then
    if (l.drop 5).takeWhile isColonOrSpace |>.isEmpty then none
    else
      match (l.drop 5).dropWhile isColonOrSpace with
      | d1 :: d2 :: _ =>
        if d1.isDigit && d2.isDigit then some (digitVal d1 * 10 + digitVal d2)
        else none
      | _ => none
  else none

/-- The pattern `tenho\s+(\d{2})` anchored at the current position. -/
def p3At (l : List Char) : Option Nat :=
  if "tenho".data.isPrefixOf l then
    if (l.drop 5).takeWhile isPySpace |>.isEmpty then none
    else
      match (l.drop 5).dropWhile isPySpace with
      | d1 :: d2 :: _ =>
        if d1.isDigit && d2.isDigit then some (digitVal d1 * 10 + digitVal d2)
        else none
      | _ => none
  else none

/-- The explicit-age search (lines 86–95): the three patterns are tried in
order, each by leftmost match over the lower-cased text; the captured two
digits are the age. -/
def searchAgePatterns (lower : List Char) : Option Nat :=
  match reSearchFirst p1At lower with
  | some a => some a
  | none =>
    match reSearchFirst p2At lower with
    | some a => some a
    | none => reSearchFirst p3At lower

/-- The explicit-age thresholds of `determine_age_group` (lines 96–101):
`age < 30 → 1`, `30 ≤ age < 45 → 2`, otherwise `3`. -/
def age_to_group (age : Int) : Nat :=
  if age < 30 then 1 else if age < 45 then 2 else 3

/-- Youth-signalling keywords (lines 104–107). -/
def young_keywords : List String :=
  ["jovem", "novo", "nova", "20 anos", "vinte", "adolescent",
   "início", "prevenção", "primeira rotina"]

/-- Midlife-signalling keywords (lines 109–112). -/
def middle_keywords : List String :=
  ["trinta", "30", "35", "40", "meia idade",
   "primeiras rugas", "sinais de idade", "preventivo"]

/-- Maturity-signalling keywords (lines 114–118). -/
def mature_keywords : List String :=
  ["45", "50", "55", "60", "quarenta", "cinquenta",
   "madur", "rugas profundas", "flacidez", "anti-idade",
   "rejuvenescimento", "lifting"]

/-- `sum(1 for keyword in kws if keyword in lower)`. -/
def keywordScore (kws : List String) (lower : List Char) : Nat :=
  (kws.filter (fun k => containsSub lower k.data)).length

/-- Python's `max({1: y, 2: m, 3: t}, key=scores.get)`: keys are visited
in order 1, 2, 3 and the current best is replaced only by a strictly
greater score, so the first key attaining the maximum wins. -/
def pyMaxGroup (y m t : Nat) : Nat :=
  if t > max y m then 3 else if m > y then 2 else 1

/-- The score of a group. -/
def groupScore (y m t g : Nat) : Nat :=
  if g = 1 then y else if g = 2 then m else t

/-- The keyword fallback (lines 120–132): the first group attaining the
maximal score, except that a zero best score falls back to group 1. -/
def groupFromScores (y m t : Nat) : Nat :=
  if groupScore y m t (pyMaxGroup y m t) = 0 then 1 else pyMaxGroup y m t

/-- The keyword-scoring branch of `determine_age_group`. -/
def keywordFallbackGroup (lower : List Char) : Nat :=
  groupFromScores (keywordScore young_keywords lower)
    (keywordScore middle_keywords lower)
    (keywordScore mature_keywords lower)

/-- `ProductRecommendationService.determine_age_group` (lines 75–132). -/
def determine_age_group (user_responses : String) : Nat :=
  match searchAgePatterns (pyLower user_responses.data) with
  | some age => age_to_group (Int.ofNat age)
  | none => keywordFallbackGroup (pyLower user_responses.data)

/-- `get_age_category` (`AiServices.py`, lines 129–141): note the
inclusive comparisons `age <= 30` and `age <= 45`. -/
def get_age_category (age : Int) : Nat :=
  if age ≤ 30 then 1 else if age ≤ 45 then 2 else 3

/-! ## Python `str()` rendering of decoded JSON values

Used by the f-strings of `format_products_for_ai`.  String values render
as themselves; the container and numeric renderings abbreviate Python's
`repr` (quote-escaping rules and canonical float formatting are not
reproduced — no property proved below depends on them). -/

mutual

/-- Python `repr` of a decoded JSON value (abbreviated, see above). -/
def pyRepr : Json → String
  | .str s => String.mk (squote :: s.data ++ [squote])
  | .num raw => raw
  | .bool true => "True"
  | .bool false => "False"
  | .null => "None"
  | .arr xs => "[" ++ pyReprElems xs ++ "]"
  | .obj kvs => String.mk [lbrace] ++ pyReprMembers kvs ++ String.mk [rbrace]

/-- Comma-separated `repr`s of list elements. -/
def pyReprElems : List Json → String
  | [] => ""
  | [x] => pyRepr x
  | x :: xs => pyRepr x ++ ", " ++ pyReprElems xs

/-- Comma-separated `repr`s of dict items. -/
def pyReprMembers : List (String × Json) → String
  | [] => ""
  | [(k, v)] => String.mk (squote :: k.data ++ [squote]) ++ ": " ++ pyRepr v
  | (k, v) :: kvs =>
    String.mk (squote :: k.data ++ [squote]) ++ ": " ++ pyRepr v ++ ", "
      ++ pyReprMembers kvs

end

/-- Python `str()` of a decoded JSON value: strings render as themselves,
everything else as its `repr`. -/
def pyStr : Json → String
  | .str s => s
  | j => pyRepr j

/-! ## ContextBuilder: `get_products_by_category` and
`format_products_for_ai` (`ProductRecommendation.py`, lines 203–235) -/

/-- Python `dict.get` on a decoded product (keys are unique after
`dictInsert`). -/
def assocFind : PyDict → String → Option Json
  | [], _ => none
  | (k, v) :: rest, key => if k = key then some v else assocFind rest key

/-- `product.get('category', 'Outros')` (line 208). -/
def categoryOf (p : PyDict) : Json :=
  (assocFind p "category").getD (Json.str "Outros")

/-- `product.get(key, 'N/A')` rendered by an f-string. -/
def getFieldStr (p : PyDict) (key : String) : String :=
  match assocFind p key with
  | some v => pyStr v
  | none => "N/A"

/-- Place one product under its category bucket (lines 208–211): an
existing bucket gets the product appended, otherwise a fresh bucket is
appended at the end (Python dicts preserve insertion order). -/
def addToCat (cat : Json) (p : PyDict) :
    List (Json × List PyDict) → List (Json × List PyDict)
  | [] => [(cat, [p])]
  | (k, ps) :: rest =>
    if Json.beq k cat then (k, ps ++ [p]) :: rest
    else (k, ps) :: addToCat cat p rest

/-- `ProductRecommendationService.get_products_by_category`
(lines 203–213). -/
def get_products_by_category (products : List PyDict) :
    List (Json × List PyDict) :=
  products.foldl (fun acc p => addToCat (categoryOf p) p acc) []

/-- The lines emitted for one product (lines 229–233). -/
def productBlock (p : PyDict) : String :=
  "**" ++ getFieldStr p "name" ++ "**\n"
    ++ "- SKU: " ++ getFieldStr p "sku" ++ "\n"
    ++ "- Descrição: " ++ getFieldStr p "description" ++ "\n"
    ++ "- URL: " ++ getFieldStr p "url" ++ "\n"
    ++ "- Imagem: " ++ getFieldStr p "image" ++ "\n\n"

/-- The section emitted for one category bucket (lines 226–233). -/
def sectionBlock (ci : Json × List PyDict) : String :=
  "## " ++ pyStr ci.1 ++ "\n\n" ++ String.join (ci.2.map productBlock)

/-- The fixed introduction of a non-empty product listing
(lines 222–224). -/
def formatIntro : String :=
  "# PRODUTOS DISPONÍVEIS PARA RECOMENDAÇÃO\n\n"
    ++ "Use APENAS estes produtos nas suas recomendações.\n"
    ++ "Para cada produto, use exatamente as informações fornecidas abaixo.\n\n"

/-- `ProductRecommendationService.format_products_for_ai`
(lines 215–235). -/
def format_products_for_ai (products : List PyDict) : String :=
  if products.isEmpty then "# NENHUM PRODUTO DISPONÍVEL\n"
  else
    formatIntro
      ++ String.join ((get_products_by_category products).map sectionBlock)

/-! ## CatalogResolver: `ProductRecommendationService.load_routine`
(lines 179–201)

The document store (file system) is a function from file name to
optional contents; the constant data-directory prefix of the path is
elided.  `load_routine` returns the products, the updated cache, and the
number of store consultations (existence check / read) made by this
call. -/

/-- `cache_key = f"{skin_type}_{routine_type}_{age_group}"` (line 181). -/
def cacheKey (skin routine : String) (age_group : Nat) : String :=
  skin ++ "_" ++ routine ++ "_" ++ toString age_group

/-- `filename = f"Rotinas - {skin_type} - {routine_type} - {age_group}.csv"`
(line 186). -/
def routineFileName (skin routine : String) (age_group : Nat) : String :=
  "Rotinas - " ++ skin ++ " - " ++ routine ++ " - " ++ toString age_group
    ++ ".csv"

/-- `ProductRecommendationService.load_routine`: serve from cache when
present; otherwise consult the store — a missing file returns `[]`
*without* touching the cache (lines 189–191), while an existing file is
parsed and the result (empty or not) is inserted into the cache
(lines 193–198). -/
def load_routine (store : String → Option String)
    (cache : List (String × List PyDict)) (skin routine : String)
    (age_group : Nat) : List PyDict × List (String × List PyDict) × Nat :=
  match cache.lookup (cacheKey skin routine age_group) with
  | some ps => (ps, cache, 0)
  | none =>
    match store (routineFileName skin routine age_group) with
    | none => ([], cache, 1)
    | some content =>
      (parse_csv_content content,
       cache ++ [(cacheKey skin routine age_group, parse_csv_content content)],
       1)

/-! ## `SkinTypes` and the `load_products_for_skin_type` tool
(`Response.py` lines 19–23, `AiServices.py` lines 71–108, 154–188) -/

/-- The `SkinTypes` enumeration (`Response.py`, lines 19–23). -/
inductive SkinTypes where
  | seca
  | mista
  | oleosa
  | normal
  deriving DecidableEq, Repr

/-- The enum member's value string. -/
def SkinTypes.value : SkinTypes → String
  | .seca => "seca"
  | .mista => "mista"
  | .oleosa => "oleosa"
  | .normal => "normal"

/-- `SkinTypes(value)` — by-value enum lookup, `None` modelling the
`ValueError`. -/
def skinTypesOfValue (s : String) : Option SkinTypes :=
  if s = "seca" then some .seca
  else if s = "mista" then some .mista
  else if s = "oleosa" then some .oleosa
  else if s = "normal" then some .normal
  else none

/-- `get_routine_file` (`AiServices.py`, lines 154–176): the CSV file
name for a skin type, age and complexity (the constant data-directory
path prefix is elided). -/
def get_routine_file (skin_type : SkinTypes) (age : Int)
    (complexity : String) : String :=
  "Rotinas - " ++ pyUpperS skin_type.value ++ " - " ++ complexity ++ " - "
    ++ toString (get_age_category age) ++ ".csv"

/-- `load_products_csv` (lines 178–188): read the file or raise
(`Except.error` carries `str(e)` of the raised exception). -/
def load_products_csv (store : String → Option String)
    (file_path : String) : Except String String :=
  match store file_path with
  | some content => Except.ok content
  | none =>
    Except.error ("Arquivo de produtos não encontrado: " ++ file_path)

/-- The tool's reply for an unrecognised skin type (line 92). -/
def invalidSkinTypeMsg (skin_type : String) : String :=
  "Erro: Tipo de pele " ++ String.mk [squote] ++ skin_type
    ++ String.mk [squote] ++ " inválido. Use: seca, mista, oleosa ou normal"

/-- The `load_products_for_skin_type` tool (lines 71–108): validate the
model-chosen skin type against the enum — answering an error string, not
a `NORMAL` default, when invalid — then load and quote the raw catalogue
file, catching load failures into an error string. -/
def load_products_for_skin_type (store : String → Option String)
    (age : Int) (complexity : String) (skin_type : String) : String :=
  match skinTypesOfValue (pyLowerS skin_type) with
  | none => invalidSkinTypeMsg skin_type
  | some st =>
    match load_products_csv store (get_routine_file st age complexity) with
    | Except.ok products_data =>
      "\n=== PRODUTOS DISPONÍVEIS PARA PELE " ++ pyUpperS st.value
        ++ " ===\n\n" ++ products_data
        ++ "\n\nUse APENAS estes produtos para montar a rotina de cuidados.\n"
        ++ "Tipo de pele confirmado: " ++ st.value ++ "\n"
    | Except.error e => "Erro ao carregar produtos: " ++ e

/-! ## AnalysisOrchestrator: `analyze_skin` (`AiServices.py`,
lines 191–263) -/

/-- `QuizQuestion` (`Request.py`, lines 7–9). -/
structure QuizQuestion where
  question : String
  answer : String
  deriving DecidableEq, Repr

/-- `SkinProfileRequest` (`Request.py`, lines 12–14): the declared fields
are `questions` and `others` — there is no `age` field. -/
structure SkinProfileRequest where
  questions : List QuizQuestion
  others : List (List (String × String))

/-- The field names declared by `SkinProfileRequest`. -/
def skinProfileFieldNames : List String := ["questions", "others"]

/-- Models `skin_profile.age if skin_profile.age else 30`
(`AiServices.py`, line 207).  Pydantic models expose only their declared
fields as attributes, so the access `skin_profile.age` raises
`AttributeError` — the guard of the field set is the embedding of that
lookup; the `Except.ok 30` branch (the intended default) is unreachable
because `"age"` is not among `skinProfileFieldNames`. -/
def analyze_skin_derive_age (_p : SkinProfileRequest) : Except String Int :=
  if skinProfileFieldNames.contains "age" then Except.ok 30
  else Except.error "AttributeError: age"

/-- `sum(len(q.answer) for q in skin_profile.questions)` (line 210). -/
def totalAnswerLength (qs : List QuizQuestion) : Nat :=
  (qs.map (fun q => q.answer.length)).sum

/-- The orchestration-level complexity rule (line 211): `COMPLETA` when
the combined answer length exceeds 150 characters or there are more than
5 questions, else `SIMPLES`. -/
def analyze_skin_complexity (qs : List QuizQuestion) : String :=
  if totalAnswerLength qs > 150 || qs.length > 5 then "COMPLETA"
  else "SIMPLES"

/-- Outcome of the retry loop: a successful model result, an
`HTTPException` with its status code and detail, or (unreachably from the
entry point) the loop running out of iterations. -/
inductive RetryOutcome (α : Type) where
  | success (r : α)
  | httpError (status : Nat) (detail : String)
  | loopEnded
  deriving Repr

/-- Trace of one execution of the retry loop: how many model invocations
were made, which sleeps were performed (in seconds, in order), and the
outcome. -/
structure RetryTrace (α : Type) where
  attempts : Nat
  sleeps : List Nat
  outcome : RetryOutcome α

/-- The quota/rate-limit test (line 244): the error message contains
`RESOURCE_EXHAUSTED` or `429`. -/
def isQuotaMsg (e : String) : Bool :=
  containsSub e.data "RESOURCE_EXHAUSTED".data || containsSub e.data "429".data

/-- Detail of the HTTP 429 raised on quota exhaustion (lines 249–252). -/
def quotaExceededDetail : String :=
  "Limite de requisições da API atingido. Aguarde 1 minuto e tente novamente."

/-- `for attempt in range(max_retries)` (lines 226–263), with the model
invocation abstracted as a function from the attempt index to its result.
`rem` is the number of loop iterations still available including the
current one, so `rem > 0` after decrement corresponds to
`attempt < max_retries - 1`. -/
def retryLoop {α : Type} (model : Nat → Except String α)
    (retry_delay : Nat) : Nat → Nat → RetryTrace α
  | _, 0 => ⟨0, [], RetryOutcome.loopEnded⟩
  | attempt, rem + 1 =>
    match model attempt with
    | Except.ok r => ⟨1, [], RetryOutcome.success r⟩
    | Except.error e =>
      if isQuotaMsg e then
        if rem > 0 then
          (fun t => ⟨t.attempts + 1, retry_delay :: t.sleeps, t.outcome⟩)
            (retryLoop model retry_delay (attempt + 1) rem)
        else ⟨1, [], RetryOutcome.httpError 429 quotaExceededDetail⟩
      else if rem > 0 then
        (fun t => ⟨t.attempts + 1, retry_delay * (attempt + 1) :: t.sleeps,
          t.outcome⟩) (retryLoop model retry_delay (attempt + 1) rem)
      else
        ⟨1, [], RetryOutcome.httpError 500 ("Erro ao processar análise: " ++ e)⟩

/-- The retry protocol of `analyze_skin` with its constants
`max_retries = 2` and `retry_delay = 60` (lines 223–224). -/
def analyze_skin_retry {α : Type} (model : Nat → Except String α) :
    RetryTrace α :=
  retryLoop model 60 0 2

/-- An attempt outcome that fails with a quota/rate-limit signal. -/
def isQuotaFail {α : Type} : Except String α → Bool
  | Except.error e => isQuotaMsg e
  | Except.ok _ => false

/-- An attempt outcome that fails with any other error. -/
def isOtherFail {α : Type} : Except String α → Bool
  | Except.error e => !isQuotaMsg e
  | Except.ok _ => false

/-- Recognise an HTTP-500 outcome. -/
def isHttp500 {α : Type} : RetryOutcome α → Bool
  | RetryOutcome.httpError 500 _ => true
  | _ => false

/-! ## Concrete inputs used by the theorems below -/

/-- A profile with 6 questions whose answers total 200 characters. -/
def profileSix : List QuizQuestion :=
  [⟨"q1", String.mk (List.replicate 33 'a')⟩,
   ⟨"q2", String.mk (List.replicate 33 'a')⟩,
   ⟨"q3", String.mk (List.replicate 33 'a')⟩,
   ⟨"q4", String.mk (List.replicate 33 'a')⟩,
   ⟨"q5", String.mk (List.replicate 33 'a')⟩,
   ⟨"q6", String.mk (List.replicate 35 'a')⟩]

/-- A profile with 3 questions whose answers total 50 characters. -/
def profileThree : List QuizQuestion :=
  [⟨"q1", String.mk (List.replicate 20 'a')⟩,
   ⟨"q2", String.mk (List.replicate 20 'a')⟩,
   ⟨"q3", String.mk (List.replicate 10 'a')⟩]

/-- A document store holding exactly the NORMAL/COMPLETA/category-1
catalogue. -/
def storeNormalOnly : String → Option String := fun f =>
  if f = "Rotinas - NORMAL - COMPLETA - 1.csv" then some "RAW" else none

/-- A document store holding exactly the MISTA/COMPLETA/category-2
catalogue, with empty contents. -/
def storeMistaOnly : String → Option String := fun f =>
  if f = "Rotinas - MISTA - COMPLETA - 2.csv" then some "" else none

/-- A concrete decoded product in category `X`. -/
def prodA : PyDict := [("name", Json.str "A"), ("category", Json.str "X")]

/-- A concrete decoded product with no category field. -/
def prodB : PyDict := [("name", Json.str "B")]

/-! ## Theorems -/

theorem Json.beq_iff : ∀ a b : Json, Json.beq a b = true ↔ a = b := by
  intro a b
  induction a, b using Json.beq.induct with
  | case9 a b h1 h2 h3 h4 h5 h6 h7 h8 =>
    cases a <;> cases b <;> try (simp_all [Json.beq]; done)
    case arr.arr xs ys =>
      cases xs with
      | nil =>
        cases ys with
        | nil => simp [Json.beq]
        | cons y ys2 => simp [Json.beq]
      | cons x xs2 =>
        cases ys with
        | nil => simp [Json.beq]
        | cons y ys2 => exact absurd rfl (h6 x xs2 y ys2 rfl)
    case obj.obj xs ys =>
      cases xs with
      | nil =>
        cases ys with
        | nil => simp [Json.beq]
        | cons q qs => simp [Json.beq]
      | cons p ps =>
        cases ys with
        | nil => simp [Json.beq]
        | cons q qs =>
          obtain ⟨k, v⟩ := p
          obtain ⟨k2, v2⟩ := q
          exact absurd rfl (h8 k v ps k2 v2 qs rfl)
  | _ => simp_all [Json.beq]

theorem Json.beq_refl (a : Json) : Json.beq a a = true :=
  (Json.beq_iff a a).mpr rfl

/-- **C1.** For every catalogue document, `_parse_csv_content` returns
exactly the well-formed entries — those candidate segments of the
parser's own line scan whose decode succeeds — in original document
order, and silently drops the malformed ones; the function is total, so
no input makes it raise. -/
theorem c1_parse_keeps_exactly_wellformed_in_order (content : String) :
    parse_csv_content content =
      (docSegments content).filterMap decodeSegment ∧
    (parse_csv_content content).length =
      ((docSegments content).filter
        (fun s => (decodeSegment s).isSome)).length := by
  have h := parseLoop_eq_filterMap_segLoop (docLines content) [] []
  constructor
  · simpa [parse_csv_content, docSegments] using h
  · have h2 : parse_csv_content content =
        (docSegments content).filterMap decodeSegment := by
      simpa [parse_csv_content, docSegments] using h
    rw [h2]
    exact length_filterMap_eq_length_filter _ _

/-- **C3 counterexample.** The claim asserts that the age-to-bracket
mapping used to select a catalogue sends an explicit age of exactly 30 to
bracket 2 and exactly 45 to bracket 3, but `get_age_category` — the
mapping used by `get_routine_file` on the live path — uses inclusive
bounds and sends 30 to bracket 1 and 45 to bracket 2. -/
theorem c3_boundary_counterexample :
    get_age_category 30 = 1 ∧ get_age_category 45 = 2 ∧
    get_age_category 30 ≠ 2 ∧ get_age_category 45 ≠ 3 := by
  refine ⟨rfl, rfl, ?_, ?_⟩ <;> decide

/-- **C3 (amended).** The two age mappings differ at the boundaries:
`get_age_category` (live catalogue-selection path) returns 1 iff
`age ≤ 30`, 2 iff `30 < age ≤ 45`, 3 iff `45 < age`, while the
classifier's `determine_age_group` maps an explicitly stated age via
`age < 30 → 1`, `30 ≤ age < 45 → 2`, `45 ≤ age → 3`; the text
"Tenho 52 anos" classifies as bracket 3 (OVER_45). -/
theorem c3_age_bracket_boundaries (age : Int) :
    (get_age_category age = 1 ↔ age ≤ 30) ∧
    (get_age_category age = 2 ↔ 30 < age ∧ age ≤ 45) ∧
    (get_age_category age = 3 ↔ 45 < age) ∧
    (age_to_group age = 1 ↔ age < 30) ∧
    (age_to_group age = 2 ↔ 30 ≤ age ∧ age < 45) ∧
    (age_to_group age = 3 ↔ 45 ≤ age) ∧
    determine_age_group "Tenho 52 anos" = 3 := by
  refine ⟨?_, ?_, ?_, ?_, ?_, ?_, by decide⟩ <;>
    (simp only [get_age_category, age_to_group]; split_ifs <;> omega)

/-- **C5.** The orchestrator's age derivation
(`age = skin_profile.age if skin_profile.age else 30`) can never succeed:
`SkinProfileRequest` declares no `age` field, so the attribute access
raises `AttributeError` for every profile and the default 30 is
unreachable — `analyze` fails on every profile, with or without an age
in the inbound payload. -/
theorem c5_age_derivation_always_raises (p : SkinProfileRequest) :
    analyze_skin_derive_age p = Except.error "AttributeError: age" := rfl

/-- **C6.** The complexity the orchestrator computes for the model run is
`COMPLETA` iff the combined answer length exceeds 150 characters or there
are more than 5 questions, and `SIMPLES` otherwise; a 6-question profile
totalling 200 answer characters yields `COMPLETA` and a 3-question
profile totalling 50 yields `SIMPLES`. -/
theorem c6_complexity_threshold (qs : List QuizQuestion) :
    (analyze_skin_complexity qs = "COMPLETA" ↔
      150 < totalAnswerLength qs ∨ 5 < qs.length) ∧
    (analyze_skin_complexity qs = "SIMPLES" ↔
      totalAnswerLength qs ≤ 150 ∧ qs.length ≤ 5) ∧
    totalAnswerLength profileSix = 200 ∧ profileSix.length = 6 ∧
    analyze_skin_complexity profileSix = "COMPLETA" ∧
    totalAnswerLength profileThree = 50 ∧ profileThree.length = 3 ∧
    analyze_skin_complexity profileThree = "SIMPLES" := by
  refine ⟨?_, ?_, by decide, by decide, by decide, by decide, by decide,
    by decide⟩ <;>
    (unfold analyze_skin_complexity
     split <;> rename_i hcond <;> simp_all <;> omega)

theorem lookup_append_single {β : Type} (cache : List (String × β))
    (k : String) (v : β) (h : cache.lookup k = none) :
    (cache ++ [(k, v)]).lookup k = some v := by
  induction cache with
  | nil => simp [List.lookup]
  | cons a l ih =>
    obtain ⟨k2, v2⟩ := a
    by_cases hk : k == k2
    · simp [List.lookup, hk] at h
    · simp only [List.lookup, List.cons_append, hk] at h ⊢
      exact ih h

/-- **C2 counterexample.** For a key with no backing document, the claim
asserts the empty result is inserted into the cache and the store is
consulted exactly once per distinct key.  In fact `load_routine` returns
before touching the cache: the cache stays empty after the first call,
and a second call with the same key consults the store again (one
consultation per call, two in total). -/
theorem c2_missing_doc_counterexample :
    load_routine (fun _ => none) [] "SECA" "SIMPLES" 1 = ([], [], 1) ∧
    load_routine (fun _ => none)
      (load_routine (fun _ => none) [] "SECA" "SIMPLES" 1).2.1
      "SECA" "SIMPLES" 1 = ([], [], 1) ∧
    (load_routine (fun _ => none) [] "SECA" "SIMPLES" 1).2.2 +
      (load_routine (fun _ => none)
        (load_routine (fun _ => none) [] "SECA" "SIMPLES" 1).2.1
        "SECA" "SIMPLES" 1).2.2 = 2 := by
  refine ⟨rfl, rfl, rfl⟩

/-- **C2 (amended).** A key whose document is missing returns the empty
sequence but is *not* cached: the cache is unchanged and the store is
consulted once on *every* call with that key.  Only keys whose document
exists are cached (including empty parses): the first call consults the
store once and inserts, and the second call is served from the cache
with no store consultation. -/
theorem c2_cache_behaviour (store : String → Option String)
    (cache : List (String × List PyDict)) (skin routine : String)
    (g : Nat) (hnc : cache.lookup (cacheKey skin routine g) = none) :
    (store (routineFileName skin routine g) = none →
      load_routine store cache skin routine g = ([], cache, 1)) ∧
    (∀ content, store (routineFileName skin routine g) = some content →
      load_routine store cache skin routine g =
        (parse_csv_content content,
         cache ++ [(cacheKey skin routine g, parse_csv_content content)],
         1) ∧
      load_routine store
        (cache ++ [(cacheKey skin routine g, parse_csv_content content)])
        skin routine g =
        (parse_csv_content content,
         cache ++ [(cacheKey skin routine g, parse_csv_content content)],
         0)) := by
  constructor
  · intro hmiss
    unfold load_routine
    rw [hnc, hmiss]
  · intro content hhit
    constructor
    · unfold load_routine
      rw [hnc, hhit]
    · unfold load_routine
      rw [lookup_append_single cache _ _ hnc]

/-- **C2 witness.** The amended cache behaviour evaluated at concrete
stores: a missing MISTA key is returned uncached with one consultation,
and an existing MISTA document (empty contents) is cached by the first
call and served from the cache (zero consultations) by the second. -/
theorem c2_cache_behaviour_witness :
    (load_routine (fun _ => none) [] "MISTA" "COMPLETA" 2 = ([], [], 1)) ∧
    (load_routine storeMistaOnly [] "MISTA" "COMPLETA" 2 =
      ([], [("MISTA_COMPLETA_2", [])], 1) ∧
     load_routine storeMistaOnly [("MISTA_COMPLETA_2", [])]
       "MISTA" "COMPLETA" 2 = ([], [("MISTA_COMPLETA_2", [])], 0)) := by
  constructor
  · exact (c2_cache_behaviour (fun _ => none) [] "MISTA" "COMPLETA" 2
      rfl).1 rfl
  · exact (c2_cache_behaviour storeMistaOnly [] "MISTA" "COMPLETA" 2
      rfl).2 "" rfl

/-- **C4 counterexample.** The claim asserts an unrecognised
model-chosen skin type is treated as `NORMAL`.  With the NORMAL
catalogue present in the store, the tool answers the unrecognised type
"rosada" with an explanatory error string, which differs from its answer
for "normal" — no NORMAL defaulting happens. -/
theorem c4_no_normal_default_counterexample :
    load_products_for_skin_type storeNormalOnly 25 "COMPLETA" "rosada" =
      invalidSkinTypeMsg "rosada" ∧
    load_products_for_skin_type storeNormalOnly 25 "COMPLETA" "rosada" ≠
      load_products_for_skin_type storeNormalOnly 25 "COMPLETA" "normal" := by
  constructor
  · rfl
  · decide

/-- **C4 (amended).** An unrecognised skin type is not defaulted to
`NORMAL`: for every store, age and complexity, the tool answers the
fixed explanatory error string naming the four valid values.  No
exception escapes (the function is total), so the validation itself
never fails the request. -/
theorem c4_invalid_skin_type_answers_error (store : String → Option String)
    (age : Int) (complexity s : String)
    (h : skinTypesOfValue (pyLowerS s) = none) :
    load_products_for_skin_type store age complexity s =
      invalidSkinTypeMsg s := by
  unfold load_products_for_skin_type
  rw [h]

/-- **C4 witness.** The amended statement evaluated at the concrete
unrecognised type "amarela". -/
theorem c4_invalid_skin_type_witness :
    load_products_for_skin_type (fun _ => none) 40 "SIMPLES" "amarela" =
      invalidSkinTypeMsg "amarela" :=
  c4_invalid_skin_type_answers_error (fun _ => none) 40 "SIMPLES" "amarela"
    (by decide)

set_option maxRecDepth 4000 in
/-- **C7.** The orchestrator makes at most 2 model invocations; when both
fail with a quota signal it surfaces HTTP 429 after exactly 2 attempts
(no third), when both fail with non-quota errors it surfaces HTTP 500
after exactly 2 attempts, and the single possible backoff sleep is
`retry_delay * attempt_number = 60 * 1` seconds for a non-quota first
failure (and the fixed 60 seconds for a quota first failure). -/
theorem c7_retry_bounded_and_classified (model : Nat → Except String Unit) :
    (analyze_skin_retry model).attempts ≤ 2 ∧
    (isQuotaFail (model 0) = true → isQuotaFail (model 1) = true →
      (analyze_skin_retry model).outcome =
        RetryOutcome.httpError 429 quotaExceededDetail ∧
      (analyze_skin_retry model).attempts = 2) ∧
    (isOtherFail (model 0) = true → isOtherFail (model 1) = true →
      isHttp500 (analyze_skin_retry model).outcome = true ∧
      (analyze_skin_retry model).attempts = 2) ∧
    (isOtherFail (model 0) = true →
      (analyze_skin_retry model).sleeps = [60 * 1]) ∧
    (isQuotaFail (model 0) = true →
      (analyze_skin_retry model).sleeps = [60]) := by
  have hnum : (2 : Nat) = 0 + 1 + 1 := rfl
  cases h0 : model 0 with
  | ok r =>
    have hval : analyze_skin_retry model = ⟨1, [], RetryOutcome.success r⟩ := by
      unfold analyze_skin_retry
      rw [hnum]
      simp only [retryLoop, h0]
    refine ⟨?_, ?_, ?_, ?_, ?_⟩ <;>
      simp [hval, h0, isQuotaFail, isOtherFail]
  | error e =>
    cases h1 : model 1 with
    | ok r =>
      have hval : analyze_skin_retry model =
          ⟨2, [60], RetryOutcome.success r⟩ := by
        unfold analyze_skin_retry
        rw [hnum]
        cases hq : isQuotaMsg e <;>
          simp only [retryLoop, h0, h1, hq, Bool.false_eq_true, if_false,
            if_true, gt_iff_lt, Nat.zero_lt_succ, Nat.lt_irrefl]
      refine ⟨?_, ?_, ?_, ?_, ?_⟩ <;>
        simp [hval, h0, h1, isQuotaFail, isOtherFail, isHttp500]
    | error e2 =>
      have hval : analyze_skin_retry model =
          ⟨2, [60],
            if isQuotaMsg e2 then RetryOutcome.httpError 429 quotaExceededDetail
            else RetryOutcome.httpError 500 ("Erro ao processar análise: " ++ e2)⟩ := by
        unfold analyze_skin_retry
        rw [hnum]
        cases hq : isQuotaMsg e <;> cases hq2 : isQuotaMsg e2 <;>
          simp only [retryLoop, h0, h1, hq, hq2, Bool.false_eq_true,
            if_false, if_true, gt_iff_lt, Nat.zero_lt_succ, Nat.lt_irrefl]
      cases hq2 : isQuotaMsg e2 with
      | true =>
        refine ⟨?_, ?_, ?_, ?_, ?_⟩ <;>
          simp [hval, h0, h1, hq2, isQuotaFail, isOtherFail, isHttp500]
      | false =>
        refine ⟨?_, ?_, ?_, ?_, ?_⟩ <;>
          simp [hval, h0, h1, hq2, isQuotaFail, isOtherFail, isHttp500]

/-- **C7 witness.** The retry policy evaluated at two concrete oracle
models: one failing both attempts with a quota signal (HTTP 429 after 2
attempts), one failing both attempts with a generic error (HTTP 500
after 2 attempts). -/
theorem c7_retry_witness :
    ((analyze_skin_retry
        (fun _ => (Except.error "RESOURCE_EXHAUSTED" : Except String Unit))).outcome =
      RetryOutcome.httpError 429 quotaExceededDetail ∧
     (analyze_skin_retry
        (fun _ => (Except.error "RESOURCE_EXHAUSTED" : Except String Unit))).attempts = 2) ∧
    (isHttp500 (analyze_skin_retry
        (fun _ => (Except.error "falha interna" : Except String Unit))).outcome = true ∧
     (analyze_skin_retry
        (fun _ => (Except.error "falha interna" : Except String Unit))).attempts = 2) := by
  constructor
  · exact (c7_retry_bounded_and_classified
      (fun _ => Except.error "RESOURCE_EXHAUSTED")).2.1 (by decide) (by decide)
  · exact (c7_retry_bounded_and_classified
      (fun _ => Except.error "falha interna")).2.2.1 (by decide) (by decide)

theorem groupFromScores_first_argmax (y m t : Nat) :
    groupFromScores y m t =
      if y ≥ m ∧ y ≥ t then 1 else if m ≥ t then 2 else 3 := by
  unfold groupFromScores pyMaxGroup groupScore
  split_ifs <;> omega

/-- **C8 counterexample.** The claim asserts that every tie for the
maximal keyword score yields group 1 (UNDER_30), in particular a nonzero
midlife/maturity tie.  On "meia idade flacidez" no explicit-age pattern
matches, the midlife and maturity scores tie at the maximum (1 = 1 > 0),
yet `determine_age_group` returns 2, not 1. -/
theorem c8_nonzero_tie_counterexample :
    searchAgePatterns (pyLower "meia idade flacidez".data) = none ∧
    keywordScore middle_keywords (pyLower "meia idade flacidez".data) =
      keywordScore mature_keywords (pyLower "meia idade flacidez".data) ∧
    keywordScore young_keywords (pyLower "meia idade flacidez".data) <
      keywordScore middle_keywords (pyLower "meia idade flacidez".data) ∧
    determine_age_group "meia idade flacidez" = 2 := by
  refine ⟨by decide, by decide, by decide, by decide⟩

/-- **C8 (amended).** When no explicit-age pattern matches, the
classifier returns the *lowest-numbered* group among those attaining the
maximal keyword score (Python's `max` keeps the first key on ties, and a
zero maximum also lands on group 1): an all-zero tie and any tie
involving the youth score yield UNDER_30, but a nonzero tie between only
the midlife and maturity scores yields group 2. -/
theorem c8_tie_first_argmax (s : String)
    (h : searchAgePatterns (pyLower s.data) = none) :
    determine_age_group s =
      (if keywordScore young_keywords (pyLower s.data) ≥
            keywordScore middle_keywords (pyLower s.data) ∧
          keywordScore young_keywords (pyLower s.data) ≥
            keywordScore mature_keywords (pyLower s.data) then 1
       else if keywordScore middle_keywords (pyLower s.data) ≥
            keywordScore mature_keywords (pyLower s.data) then 2
       else 3) := by
  unfold determine_age_group
  rw [h]
  exact groupFromScores_first_argmax _ _ _

/-- **C8 witness.** The amended tie rule evaluated at the concrete
keyword-free text "texto sem pistas": all scores are zero and the
classifier returns 1. -/
theorem c8_tie_first_argmax_witness :
    determine_age_group "texto sem pistas" = 1 := by
  have h := c8_tie_first_argmax "texto sem pistas" (by decide)
  rw [h]
  decide

theorem digitVal_lt_ten (c : Char) (h : c.isDigit = true) : digitVal c < 10 := by
  simp only [Char.isDigit, ge_iff_le, Bool.and_eq_true, decide_eq_true_eq] at h
  obtain ⟨h1, h2⟩ := h
  have h2n : c.val.toNat ≤ (57 : UInt32).toNat := h2
  have h57 : (57 : UInt32).toNat = 57 := rfl
  rw [h57] at h2n
  unfold digitVal Char.toNat
  omega

theorem twoDigit_lt_100 (d1 d2 : Char) (h1 : d1.isDigit = true)
    (h2 : d2.isDigit = true) : digitVal d1 * 10 + digitVal d2 < 100 := by
  have b1 := digitVal_lt_ten d1 h1
  have b2 := digitVal_lt_ten d2 h2
  omega

theorem p1At_lt_100 (l : List Char) (a : Nat) (h : p1At l = some a) :
    a < 100 := by
  match l with
  | [] => simp [p1At] at h
  | [d1] => simp [p1At] at h
  | d1 :: d2 :: rest =>
    simp only [p1At] at h
    split at h
    · rename_i hc
      simp only [Bool.and_eq_true] at hc
      cases h
      exact twoDigit_lt_100 d1 d2 hc.1.1 hc.1.2
    · simp at h

theorem p2At_lt_100 (l : List Char) (a : Nat) (h : p2At l = some a) :
    a < 100 := by
  simp only [p2At] at h
  split at h
  · split at h
    · simp at h
    · split at h
      · split at h
        · rename_i hc
          simp only [Bool.and_eq_true] at hc
          cases h
          exact twoDigit_lt_100 _ _ hc.1 hc.2
        · simp at h
      · simp at h
  · simp at h

theorem p3At_lt_100 (l : List Char) (a : Nat) (h : p3At l = some a) :
    a < 100 := by
  simp only [p3At] at h
  split at h
  · split at h
    · simp at h
    · split at h
      · split at h
        · rename_i hc
          simp only [Bool.and_eq_true] at hc
          cases h
          exact twoDigit_lt_100 _ _ hc.1 hc.2
        · simp at h
      · simp at h
  · simp at h

theorem reSearchFirst_lt_100 (matchAt : List Char → Option Nat)
    (hm : ∀ l a, matchAt l = some a → a < 100) :
    ∀ (l : List Char) (a : Nat), reSearchFirst matchAt l = some a →
      a < 100 := by
  intro l
  induction l with
  | nil =>
    intro a h
    exact hm [] a (by simpa [reSearchFirst] using h)
  | cons c rest ih =>
    intro a h
    simp only [reSearchFirst] at h
    cases hma : matchAt (c :: rest) with
    | some b =>
      rw [hma] at h
      cases h
      exact hm _ _ hma
    | none =>
      rw [hma] at h
      exact ih a h

theorem searchAgePatterns_lt_100 (l : List Char) (a : Nat)
    (h : searchAgePatterns l = some a) : a < 100 := by
  unfold searchAgePatterns at h
  cases h1 : reSearchFirst p1At l with
  | some b =>
    rw [h1] at h
    cases h
    exact reSearchFirst_lt_100 p1At p1At_lt_100 l a h1
  | none =>
    rw [h1] at h
    cases h2 : reSearchFirst p2At l with
    | some b =>
      rw [h2] at h
      cases h
      exact reSearchFirst_lt_100 p2At p2At_lt_100 l a h2
    | none =>
      rw [h2] at h
      exact reSearchFirst_lt_100 p3At p3At_lt_100 l a h

/-- **C10.** The explicit-age detection matches exactly two consecutive
digits: "tenho 9 anos" (single digit) matches no pattern and is settled
by keyword scoring (group 1 here); "tenho 105 anos" is matched at its
trailing two digits, capturing the age 05 = 5, hence group 1 (UNDER_30)
rather than 45+; and every captured explicit age is below 100. -/
theorem c10_age_pattern_two_digits :
    searchAgePatterns (pyLower "tenho 9 anos".data) = none ∧
    determine_age_group "tenho 9 anos" =
      keywordFallbackGroup (pyLower "tenho 9 anos".data) ∧
    determine_age_group "tenho 9 anos" = 1 ∧
    searchAgePatterns (pyLower "tenho 105 anos".data) = some 5 ∧
    determine_age_group "tenho 105 anos" = 1 ∧
    (∀ (l : List Char) (a : Nat), searchAgePatterns l = some a → a < 100) := by
  refine ⟨by decide, by decide, by decide, by decide, by decide, ?_⟩
  exact searchAgePatterns_lt_100

/-- **C10 witness.** The universal two-digit bound applied at the
concrete capture of "tenho 105 anos" (the age 5). -/
theorem c10_age_pattern_witness : (5 : Nat) < 100 :=
  c10_age_pattern_two_digits.2.2.2.2.2 (pyLower "tenho 105 anos".data) 5
    (by decide)

theorem addToCat_flatten_perm (c : Json) (p : PyDict) :
    ∀ acc : List (Json × List PyDict),
      ((addToCat c p acc).map Prod.snd).flatten.Perm
        ((acc.map Prod.snd).flatten ++ [p]) := by
  intro acc
  induction acc with
  | nil => simp [addToCat]
  | cons kv rest ih =>
    obtain ⟨k, ps⟩ := kv
    by_cases hb : Json.beq k c = true
    · simp only [addToCat, hb, if_true, List.map_cons, List.flatten_cons]
      rw [List.append_assoc, List.append_assoc]
      exact List.Perm.append_left ps List.perm_append_comm
    · simp only [addToCat, hb, if_false, Bool.false_eq_true, List.map_cons,
        List.flatten_cons]
      rw [List.append_assoc]
      exact List.Perm.append_left ps ih

theorem addToCat_mem_keys (c : Json) (p : PyDict) :
    ∀ acc kv, kv ∈ addToCat c p acc →
      kv.1 = c ∨ kv.1 ∈ acc.map Prod.fst := by
  intro acc
  induction acc with
  | nil =>
    intro kv h
    simp [addToCat] at h
    left
    rw [h]
  | cons a rest ih =>
    obtain ⟨k, ps⟩ := a
    intro kv h
    by_cases hb : Json.beq k c = true
    · simp only [addToCat, hb, if_true, List.mem_cons] at h
      rcases h with h | h
      · right; rw [h]; simp
      · right
        simp only [List.map_cons, List.mem_cons]
        right
        exact List.mem_map_of_mem Prod.fst h
    · simp only [addToCat, hb, if_false, Bool.false_eq_true,
        List.mem_cons] at h
      rcases h with h | h
      · right; rw [h]; simp
      · rcases ih kv h with h2 | h2
        · left; exact h2
        · right
          simp only [List.map_cons, List.mem_cons]
          right
          exact h2

theorem addToCat_key_present (c : Json) (p : PyDict) :
    ∀ acc, ∃ kv ∈ addToCat c p acc, kv.1 = c := by
  intro acc
  induction acc with
  | nil => exact ⟨(c, [p]), by simp [addToCat], rfl⟩
  | cons a rest ih =>
    obtain ⟨k, ps⟩ := a
    by_cases hb : Json.beq k c = true
    · exact ⟨(k, ps ++ [p]), by simp [addToCat, hb],
        (Json.beq_iff k c).mp hb⟩
    · obtain ⟨kv, hmem, hkey⟩ := ih
      refine ⟨kv, ?_, hkey⟩
      simp only [addToCat, hb, if_false, Bool.false_eq_true, List.mem_cons]
      right
      exact hmem

theorem addToCat_keys_preserved (c : Json) (p : PyDict) :
    ∀ acc kv, kv ∈ acc → ∃ kv2 ∈ addToCat c p acc, kv2.1 = kv.1 := by
  intro acc
  induction acc with
  | nil => intro kv h; simp at h
  | cons a rest ih =>
    obtain ⟨k, ps⟩ := a
    intro kv h
    rcases List.mem_cons.mp h with h | h
    · by_cases hb : Json.beq k c = true
      · exact ⟨(k, ps ++ [p]), by simp [addToCat, hb], by rw [h]⟩
      · refine ⟨(k, ps), ?_, by rw [h]⟩
        simp [addToCat, hb]
    · by_cases hb : Json.beq k c = true
      · exact ⟨kv, by simp [addToCat, hb, h], rfl⟩
      · obtain ⟨kv2, hmem, hkey⟩ := ih kv h
        refine ⟨kv2, ?_, hkey⟩
        simp only [addToCat, hb, if_false, Bool.false_eq_true, List.mem_cons]
        right
        exact hmem

theorem addToCat_pairwise_keys (c : Json) (p : PyDict) :
    ∀ acc, acc.Pairwise (fun a b => a.1 ≠ b.1) →
      (addToCat c p acc).Pairwise (fun a b => a.1 ≠ b.1) := by
  intro acc
  induction acc with
  | nil => intro _; simp [addToCat]
  | cons a rest ih =>
    obtain ⟨k, ps⟩ := a
    intro hpw
    obtain ⟨hhead, htail⟩ := List.pairwise_cons.mp hpw
    by_cases hb : Json.beq k c = true
    · simp only [addToCat, hb, if_true]
      exact List.pairwise_cons.mpr ⟨fun b hbm => hhead b hbm, htail⟩
    · simp only [addToCat, hb, if_false, Bool.false_eq_true]
      refine List.pairwise_cons.mpr ⟨?_, ih htail⟩
      intro b hbm
      rcases addToCat_mem_keys c p rest b hbm with hkey | hkey
      · rw [hkey]
        intro hkc
        exact hb ((Json.beq_iff k c).mpr hkc)
      · obtain ⟨a2, ha2, hae⟩ := List.mem_map.mp hkey
        rw [← hae]
        exact hhead a2 ha2

theorem addToCat_buckets_homogeneous (p : PyDict) :
    ∀ acc, (∀ kv ∈ acc, ∀ q ∈ kv.2, categoryOf q = kv.1) →
      ∀ kv ∈ addToCat (categoryOf p) p acc, ∀ q ∈ kv.2,
        categoryOf q = kv.1 := by
  intro acc
  induction acc with
  | nil =>
    intro _ kv hkv q hq
    simp [addToCat] at hkv
    rw [hkv] at hq ⊢
    simp at hq
    rw [hq]
  | cons a rest ih =>
    obtain ⟨k, ps⟩ := a
    intro hinv kv hkv q hq
    by_cases hb : Json.beq k (categoryOf p) = true
    · have hk : k = categoryOf p := (Json.beq_iff _ _).mp hb
      simp only [addToCat, hb, if_true, List.mem_cons] at hkv
      rcases hkv with hkv | hkv
      · rw [hkv] at hq ⊢
        simp only [List.mem_append, List.mem_singleton] at hq
        rcases hq with hq | hq
        · exact hinv (k, ps) (List.mem_cons_self _ _) q hq
        · rw [hq, hk]
      · exact hinv kv (List.mem_cons_of_mem _ hkv) q hq
    · simp only [addToCat, hb, if_false, Bool.false_eq_true,
        List.mem_cons] at hkv
      rcases hkv with hkv | hkv
      · rw [hkv] at hq ⊢
        exact hinv (k, ps) (List.mem_cons_self _ _) q hq
      · exact ih (fun kv2 h2 q2 hq2 =>
          hinv kv2 (List.mem_cons_of_mem _ h2) q2 hq2) kv hkv q hq

theorem foldl_addToCat_flatten_perm :
    ∀ (ps : List PyDict) (acc : List (Json × List PyDict)),
      (((ps.foldl (fun a q => addToCat (categoryOf q) q a) acc).map
        Prod.snd).flatten).Perm ((acc.map Prod.snd).flatten ++ ps) := by
  intro ps
  induction ps with
  | nil => intro acc; simp
  | cons q qs ih =>
    intro acc
    simp only [List.foldl_cons]
    refine (ih (addToCat (categoryOf q) q acc)).trans ?_
    refine (List.Perm.append_right qs
      (addToCat_flatten_perm (categoryOf q) q acc)).trans ?_
    rw [List.append_assoc]
    exact List.Perm.refl _

theorem foldl_addToCat_pairwise :
    ∀ (ps : List PyDict) (acc : List (Json × List PyDict)),
      acc.Pairwise (fun a b => a.1 ≠ b.1) →
      (ps.foldl (fun a q => addToCat (categoryOf q) q a) acc).Pairwise
        (fun a b => a.1 ≠ b.1) := by
  intro ps
  induction ps with
  | nil => intro acc h; simpa using h
  | cons q qs ih =>
    intro acc h
    simp only [List.foldl_cons]
    exact ih _ (addToCat_pairwise_keys (categoryOf q) q acc h)

theorem foldl_addToCat_homogeneous :
    ∀ (ps : List PyDict) (acc : List (Json × List PyDict)),
      (∀ kv ∈ acc, ∀ q ∈ kv.2, categoryOf q = kv.1) →
      ∀ kv ∈ ps.foldl (fun a q => addToCat (categoryOf q) q a) acc,
        ∀ q ∈ kv.2, categoryOf q = kv.1 := by
  intro ps
  induction ps with
  | nil => intro acc h; simpa using h
  | cons q qs ih =>
    intro acc h
    simp only [List.foldl_cons]
    exact ih _ (addToCat_buckets_homogeneous q acc h)

theorem foldl_addToCat_key_exists :
    ∀ (ps : List PyDict) (acc : List (Json × List PyDict)) (p : PyDict),
      ((∃ kv ∈ acc, kv.1 = categoryOf p) ∨ p ∈ ps) →
      ∃ kv ∈ ps.foldl (fun a q => addToCat (categoryOf q) q a) acc,
        kv.1 = categoryOf p := by
  intro ps
  induction ps with
  | nil =>
    intro acc p h
    rcases h with h | h
    · simpa using h
    · simp at h
  | cons q qs ih =>
    intro acc p h
    simp only [List.foldl_cons]
    apply ih
    rcases h with ⟨kv, hkv, hkey⟩ | hmem
    · left
      obtain ⟨kv2, h2, he⟩ :=
        addToCat_keys_preserved (categoryOf q) q acc kv hkv
      exact ⟨kv2, h2, he.trans hkey⟩
    · rcases List.mem_cons.mp hmem with heq | hmem2
      · left
        rw [heq]
        exact addToCat_key_present (categoryOf q) q acc
      · right
        exact hmem2

/-- **C9.** `format_products_for_ai` on the empty sequence returns the
explicit no-products marker; on a non-empty sequence it emits the fixed
introduction followed by one section per category bucket, where the
buckets have pairwise-distinct category keys (each category appears
exactly once as a section header), every product listed under a bucket
has exactly that bucket's category, the products listed across all
buckets are precisely the input products (as a multiset), and every
input product's category owns a bucket — so every input product appears
under exactly one category section. -/
theorem c9_context_groups_products (products : List PyDict)
    (h : products.isEmpty = false) :
    format_products_for_ai [] = "# NENHUM PRODUTO DISPONÍVEL\n" ∧
    format_products_for_ai products =
      formatIntro ++
        String.join ((get_products_by_category products).map sectionBlock) ∧
    (get_products_by_category products).Pairwise (fun a b => a.1 ≠ b.1) ∧
    (∀ kv ∈ get_products_by_category products, ∀ q ∈ kv.2,
      categoryOf q = kv.1) ∧
    (((get_products_by_category products).map Prod.snd).flatten).Perm
      products ∧
    (∀ p ∈ products, ∃ kv ∈ get_products_by_category products,
      kv.1 = categoryOf p) := by
  refine ⟨rfl, ?_, ?_, ?_, ?_, ?_⟩
  · simp [format_products_for_ai, h]
  · unfold get_products_by_category
    exact foldl_addToCat_pairwise products [] (by simp)
  · unfold get_products_by_category
    exact foldl_addToCat_homogeneous products [] (by simp)
  · unfold get_products_by_category
    simpa using foldl_addToCat_flatten_perm products []
  · intro p hp
    unfold get_products_by_category
    exact foldl_addToCat_key_exists products [] p (Or.inr hp)

/-- **C9 witness.** The grouping facts evaluated at the concrete
two-product list `[prodA, prodB]` (one explicit category, one
defaulting to "Outros"). -/
theorem c9_context_groups_witness :
    format_products_for_ai [] = "# NENHUM PRODUTO DISPONÍVEL\n" ∧
    format_products_for_ai [prodA, prodB] =
      formatIntro ++
        String.join ((get_products_by_category [prodA, prodB]).map
          sectionBlock) ∧
    (get_products_by_category [prodA, prodB]).Pairwise
      (fun a b => a.1 ≠ b.1) ∧
    (∀ kv ∈ get_products_by_category [prodA, prodB], ∀ q ∈ kv.2,
      categoryOf q = kv.1) ∧
    (((get_products_by_category [prodA, prodB]).map Prod.snd).flatten).Perm
      [prodA, prodB] ∧
    (∀ p ∈ [prodA, prodB], ∃ kv ∈ get_products_by_category [prodA, prodB],
      kv.1 = categoryOf p) :=
  c9_context_groups_products [prodA, prodB] rfl

end SkinBackend

